import Mathlib

/-!
Verification of the BurzContent (PixiePress) CMS backend resource handlers.

The Go handlers under `src/server/internal/api/handlers` and the earlier
revision in `src/unnamed/part_004` are embedded shallowly: each HTTP handler
becomes a function from its inputs (the `id` URL parameter, the decoded
request body, the generated UUID) to the sequence of writes it performs on
the `http.ResponseWriter`.  JSON decoding of a request body is modelled by an
`Option` input (`none` = `Decode` returned an error), and `uuid.NewV7`
generation by an `Option UUID` input (`none` = generation failed).
-/

namespace BurzContent

/-- google/uuid `type UUID [16]byte`: sixteen bytes. -/
structure UUID where
  bytes : List Nat
deriving DecidableEq, Repr

/-- The zero value `uuid.UUID\x7b\x7d` of the Go UUID type. -/
def uuidZero : UUID := ⟨[0, 0, 0, 0, 0, 0, 0, 0, 0, 0, 0, 0, 0, 0, 0, 0]⟩

/-- Value of a hexadecimal digit (google/uuid `xvalues` table). -/
def hexVal (c : Char) : Option Nat :=
  if ('0' ≤ c ∧ c ≤ '9') then some (c.toNat - ('0').toNat)
  else if ('a' ≤ c ∧ c ≤ 'f') then some (c.toNat - ('a').toNat + 10)
  else if ('A' ≤ c ∧ c ≤ 'F') then some (c.toNat - ('A').toNat + 10)
  else none

/-- google/uuid `xtob`: two hexadecimal digits to one byte. -/
def xtob (a b : Char) : Option Nat := do
  let hi ← hexVal a
  let lo ← hexVal b
  pure (hi * 16 + lo)

/-- Start indices of the sixteen two-digit byte groups in the canonical
36-character hyphenated UUID form, exactly the index table in
google/uuid `Parse`. -/
def uuidByteIdx : List Nat := [0, 2, 4, 6, 9, 11, 14, 16, 19, 21, 24, 26, 28, 30, 32, 34]

/-- Parse the canonical hyphenated body `xxxxxxxx-xxxx-xxxx-xxxx-xxxxxxxxxxxx`:
hyphens are required at offsets 8, 13, 18 and 23 and the sixteen byte groups
are read off the fixed index table, as in google/uuid `Parse`. -/
def parseHyphenated (cs : List Char) : Option (List Nat) :=
  if cs.get? 8 = some '-' ∧ cs.get? 13 = some '-' ∧
      cs.get? 18 = some '-' ∧ cs.get? 23 = some '-' then
    uuidByteIdx.mapM (fun i => do
      let a ← cs.get? i
      let b ← cs.get? (i + 1)
      xtob a b)
  else none

/-- google/uuid `Parse`: accepts the 36-character canonical form, the
45-character `urn:uuid:` form (prefix compared case-insensitively), the
38-character braced form (Go strips only the first character and never
inspects the final one), and the 32-character unhyphenated form.  Any other
length is an error, modelled as `none`. -/
def uuidParse (s : String) : Option UUID :=
  let cs := s.data
  if cs.length = 36 then
    (parseHyphenated cs).map UUID.mk
  else if cs.length = 45 then
    if (cs.take 9).map Char.toLower = ("urn:uuid:").data then
      (parseHyphenated (cs.drop 9)).map UUID.mk
    else none
  else if cs.length = 38 then
    (parseHyphenated (cs.drop 1)).map UUID.mk
  else if cs.length = 32 then
    ((List.range 16).mapM (fun i => do
      let a ← cs.get? (2 * i)
      let b ← cs.get? (2 * i + 1)
      xtob a b)).map UUID.mk
  else none

/-- A well-formed identifier used as concrete input in witnesses. -/
def idStr1 : String := "00112233-4455-6677-8899-aabbccddeeff"

/-- The bytes google/uuid `Parse` produces for `idStr1`. -/
def uuid1 : UUID :=
  ⟨[0x00, 0x11, 0x22, 0x33, 0x44, 0x55, 0x66, 0x77,
    0x88, 0x99, 0xaa, 0xbb, 0xcc, 0xdd, 0xee, 0xff]⟩

/-- models.User (`src/server/internal/api/models/users.go`): ID, Name and
Email, with validate tags `required,min=5` on Name and `required,email` on
Email. -/
structure User where
  ID : UUID
  Name : String
  Email : String
deriving DecidableEq, Repr

/-- models.Article (`src/unnamed/part_008`): ID, Title, Author and
Published.  The struct declares no validate tags. -/
structure Article where
  ID : UUID
  Title : String
  Author : String
  Published : Bool
deriving DecidableEq, Repr

/-- Model of the go-playground/validator `email` rule.  The library checks
the value against an RFC 5322 style regular expression; this model keeps the
shape the claims depend on: exactly one at-sign, a nonempty local part, and a
domain that contains a dot and neither starts nor ends with one.  Inputs used
in the theorems below are either clearly valid or clearly invalid under both
the regular expression and this model. -/
def emailOk (s : String) : Bool :=
  match s.data.splitOn '@' with
  | [lo, dom] =>
      !lo.isEmpty && !dom.isEmpty && dom.contains '.'
        && dom.head? != some '.' && dom.getLast? != some '.'
  | _ => false

/-- The validate tags appearing on models.User. -/
inductive VRule where
  | required
  | min (n : Nat)
  | email
deriving DecidableEq, Repr

/-- go-playground/validator semantics of one tag on a string field:
`required` fails on the zero value (the empty string), `min=n` compares the
rune count against n, `email` applies the email check. -/
def ruleOk : VRule → String → Bool
  | VRule.required, s => !(s == "")
  | VRule.min n, s => decide (n ≤ s.length)
  | VRule.email, s => emailOk s

/-- The tag name `FieldError.Tag` reports for each rule. -/
def VRule.tag : VRule → String
  | VRule.required => "required"
  | VRule.min _ => "min"
  | VRule.email => "email"

/-- Validate tags declared on `models.User.Name`. -/
def userNameRules : List VRule := [VRule.required, VRule.min 5]

/-- Validate tags declared on `models.User.Email`. -/
def userEmailRules : List VRule := [VRule.required, VRule.email]

/-- go-playground/validator evaluates the tags of one field left to right and
records at most one `FieldError` per field: the first tag that fails. -/
def fieldErrors (field : String) (value : String) (rules : List VRule) :
    List (String × VRule) :=
  match rules.find? (fun r => !ruleOk r value) with
  | some r => [(field, r)]
  | none => []

/-- `validate.Struct` on a models.User value: the fields are visited in
declaration order (Name, then Email) and the resulting field errors are
collected across all fields. -/
def validateUser (u : User) : List (String × VRule) :=
  fieldErrors "Name" u.Name userNameRules ++
    fieldErrors "Email" u.Email userEmailRules

/-- `validate.Struct` on a models.Article value: the struct declares no
validate tags, so validation never reports an error. -/
def validateArticle (_ : Article) : List (String × VRule) := []

/-- ErrorSource of `src/unnamed/part_004`: the field pointer. -/
structure ErrorSource where
  pointer : String
deriving DecidableEq, Repr

/-- ErrorDetail of `src/unnamed/part_004`: status, source, title, detail. -/
structure ErrorDetail where
  status : Nat
  source : ErrorSource
  title : String
  detail : String
deriving DecidableEq, Repr

/-- A single-quote character, written by code point. -/
def sq : String := (Char.ofNat 39).toString

/-- The ErrorDetail that `src/unnamed/part_004` UpdateUser builds from one
validator FieldError: status 422, pointer `/data/attributes/` followed by the
field name, title `Invalid Attribute`, and the detail produced by
`fmt.Sprintf` with the rule tag and the field name each wrapped in single
quotes. -/
def mkErrorDetail (fr : String × VRule) : ErrorDetail :=
  ⟨422, ⟨"/data/attributes/" ++ fr.1⟩, "Invalid Attribute",
    sq ++ fr.2.tag ++ sq ++ " validation failed for field: " ++ sq ++ fr.1 ++ sq⟩

/-- One write performed on the `http.ResponseWriter`: a `WriteHeader` call or
a body write (the plain-text bodies of `http.Error`, or one of the JSON
objects the handlers encode). -/
inductive Write where
  | header (status : Nat)
  | text (msg : String)
  | userObj (key : String) (u : User)
  | usersObj (us : List User)
  | articleObj (a : Article)
  | articlesObj (arts : List Article)
  | errorsObj (errs : List ErrorDetail)
deriving DecidableEq, Repr

/-- The status the client actually sees: net/http honours only the first
`WriteHeader` call and ignores (logging a superfluous-call warning) every
later one. -/
def effectiveStatus : List Write → Option Nat
  | [] => none
  | Write.header s :: _ => some s
  | _ :: ws => effectiveStatus ws

/-- net/http `http.Error`: one WriteHeader with the given code, then the
message followed by a newline. -/
def httpError (msg : String) (code : Nat) : List Write :=
  [Write.header code, Write.text (msg ++ "\n")]

/-- UserHandler.GetUsers (`user_handler.go` lines 54-87): on UUID generation
failure a 500 error; otherwise 200 and a `users` collection of two hardcoded
users, both carrying the single generated `userID`. -/
def GetUsers (gen : Option UUID) : List Write :=
  match gen with
  | none => httpError "Unable to Generate User ID" 500
  | some userID =>
      [Write.header 200, Write.usersObj
        [⟨userID, "Somraj Saha", "somraj.saha@weburz.com"⟩,
         ⟨userID, "John Doe", "john.doe@weburz.com"⟩]]

/-- UserHandler.GetUser (`user_handler.go` lines 116-140): 404 when the `id`
URL parameter fails `uuid.Parse`; otherwise 200 with a mock user carrying the
parsed ID and hardcoded name and email. -/
def GetUser (idParam : String) : List Write :=
  match uuidParse idParam with
  | none => httpError "User ID Not Found" 404
  | some userID =>
      [Write.header 200,
        Write.userObj "user" ⟨userID, "Somraj Saha", "somraj.saha@weburz.com"⟩]

/-- UserHandler.EditUser (`user_handler.go` lines 178-217): 404 on an
unparsable `id`, then 400 on an undecodable body, then 422 when
`validate.Struct` fails on the decoded user, else 201 with the user rebuilt
from the path ID and the Name and Email of the body. -/
def EditUser (idParam : String) (body : Option User) : List Write :=
  match uuidParse idParam with
  | none => httpError "User ID Not Found" 404
  | some userID =>
      match body with
      | none => httpError "Invalid Request Body" 400
      | some updatedUser =>
          if !(validateUser updatedUser).isEmpty then
            httpError "Request validation failed" 422
          else
            [Write.header 201,
              Write.userObj "user" ⟨userID, updatedUser.Name, updatedUser.Email⟩]

/-- UserHandler.CreateUser (`user_handler.go` lines 249-285): a decode
failure produces `http.Error` with StatusInternalServerError (500, not 400);
a validation failure 422; and on UUID generation failure the code calls
`http.Error` with 500 but lacks a `return`, so it continues with the zero
UUID and still writes the 201 and the user object. -/
def CreateUser (body : Option User) (gen : Option UUID) : List Write :=
  match body with
  | none => httpError "Invalid Request Body" 500
  | some newUser =>
      if !(validateUser newUser).isEmpty then
        httpError "Request validation failed" 422
      else
        let genWrites := match gen with
          | none => httpError "Failed to generate a User ID" 500
          | some _ => []
        let userID := gen.getD uuidZero
        genWrites ++
          [Write.header 201,
            Write.userObj "user" ⟨userID, newUser.Name, newUser.Email⟩]

/-- UserHandler.DeleteUser (`user_handler.go` lines 304-320): on an
unparsable `id` the code calls `http.Error` with 404 but lacks a `return`, so
it falls through and also calls WriteHeader(204); on a parsable `id` it
writes only the 204. -/
def DeleteUser (idParam : String) : List Write :=
  let parseWrites := match uuidParse idParam with
    | none => httpError "User ID Not Found" 404
    | some _ => []
  parseWrites ++ [Write.header 204]

/-- ArticleHandler.GetArticles (`article_handler.go` lines 123-167): on UUID
generation failure a 500 error; otherwise 200 and an `articles` collection of
three hardcoded articles, all carrying the single generated `articleID`. -/
def GetArticles (gen : Option UUID) : List Write :=
  match gen with
  | none => httpError "Unable to generate the Article ID" 500
  | some articleID =>
      [Write.header 200, Write.articlesObj
        [⟨articleID, "Go Programming Basics", "John Doe", true⟩,
         ⟨articleID, "Advanced Go Techniques", "Jane Smith", false⟩,
         ⟨articleID, "Understanding Go Concurrency", "Alice Johnson", true⟩]]

/-- ArticleHandler.GetArticle (`article_handler.go` lines 211-237): 404 when
the `id` URL parameter fails `uuid.Parse`; otherwise 200 with a mock article
carrying the parsed ID and hardcoded fields. -/
def GetArticle (idParam : String) : List Write :=
  match uuidParse idParam with
  | none => httpError "Article ID Not Found" 404
  | some articleID =>
      [Write.header 200,
        Write.articleObj ⟨articleID, "Go Programmign Basics", "John Doe", true⟩]

/-- ArticleHandler.CreateArticle (`article_handler.go` lines 288-336): 400 on
an undecodable body, 422 when `validate.Struct` fails (it never does, as
models.Article declares no tags), 500 when UUID generation fails, else 201
with an article taking Title and Author from the body and Published set to
false. -/
def CreateArticle (body : Option Article) (gen : Option UUID) : List Write :=
  match body with
  | none => httpError "Invalid request body" 400
  | some newArticle =>
      if !(validateArticle newArticle).isEmpty then
        httpError "Request validation failed" 422
      else
        match gen with
        | none => httpError "Failed to generate the Article ID" 500
        | some articleID =>
            [Write.header 201,
              Write.articleObj ⟨articleID, newArticle.Title, newArticle.Author, false⟩]

/-- ArticleHandler.EditArticle (`article_handler.go` lines 378-417): the code
first runs `validate.Struct` on the still-zero `updatedArticle` (a no-op
check since models.Article has no tags), then checks body decoding (400),
then parses the `id` parameter (404), and finally writes 201 with the article
rebuilt from the path ID and the Title, Author and Published of the body. -/
def EditArticle (idParam : String) (body : Option Article) : List Write :=
  let updatedArticle0 : Article := ⟨uuidZero, "", "", false⟩
  if !(validateArticle updatedArticle0).isEmpty then
    httpError "Request body validation failed" 422
  else
    match body with
    | none => httpError "Invalid Request Body" 400
    | some updatedArticle =>
        match uuidParse idParam with
        | none => httpError "Article ID Not Found" 404
        | some articleID =>
            [Write.header 201,
              Write.articleObj
                ⟨articleID, updatedArticle.Title, updatedArticle.Author,
                  updatedArticle.Published⟩]

/-- ArticleHandler.DeleteArticle (`article_handler.go` lines 438-447): 404
when the `id` parameter fails `uuid.Parse` (with a proper `return`),
otherwise only a 204 with no body; no store is consulted. -/
def DeleteArticle (idParam : String) : List Write :=
  match uuidParse idParam with
  | none => httpError "Article ID Not Found" 404
  | some _ => [Write.header 204]

/-- UserServiceImpl.GetAllUsers (`services/users.go` lines 79-104): on UUID
generation failure the error is wrapped and returned; otherwise a slice of
three hardcoded users, all carrying the single generated `userID`. -/
def GetAllUsers (gen : Option UUID) : Except String (List User) :=
  match gen with
  | none => Except.error "uuid generation failed"
  | some userID =>
      Except.ok
        [⟨userID, "Somraj Saha", "somraj.saha@weburz.com"⟩,
         ⟨userID, "John Doe", "john.doe@example.com"⟩,
         ⟨userID, "Sagar Kapoor", "sagar.kapoor@weburz.com"⟩]

namespace Part004

/-- UpdateUser of the earlier revision `src/unnamed/part_004` (lines
152-224): 404 on an unparsable `id`, then 400 on an undecodable body, then
`validate.Struct`; on validation failure it builds one ErrorDetail per
FieldError and writes 422 with the `errors` object, else 201 with the user
rebuilt from the path ID and the Name and Email of the body. -/
def UpdateUser (idParam : String) (body : Option User) : List Write :=
  match uuidParse idParam with
  | none => httpError "User ID Not Found" 404
  | some userID =>
      match body with
      | none => httpError "Invalid request body" 400
      | some updatedUser =>
          let errs := validateUser updatedUser
          if !errs.isEmpty then
            [Write.header 422, Write.errorsObj (errs.map mkErrorDetail)]
          else
            [Write.header 201,
              Write.userObj "user" ⟨userID, updatedUser.Name, updatedUser.Email⟩]

/-- DeleteUser of the earlier revision `src/unnamed/part_004` (lines
236-257): 404 on an unparsable `id`, with a proper `return`; otherwise only a
204 with no body. -/
def DeleteUser (idParam : String) : List Write :=
  match uuidParse idParam with
  | none => httpError "User ID Not Found" 404
  | some _ => [Write.header 204]

end Part004

/-- Spec-side count of violated field constraints: every declared
(field, rule) pair whose rule, taken alone, fails on the submitted value.
This is the N of the claim that a payload violating N field constraints
yields exactly N ValidationErrors. -/
def violatedConstraintCount (u : User) : Nat :=
  (userNameRules.filter (fun r => !ruleOk r u.Name)).length +
    (userEmailRules.filter (fun r => !ruleOk r u.Email)).length

/-- Number of fields of the payload violating at least one declared rule. -/
def violatedFieldCount (u : User) : Nat :=
  (if userNameRules.any (fun r => !ruleOk r u.Name) then 1 else 0) +
    (if userEmailRules.any (fun r => !ruleOk r u.Email) then 1 else 0)

/-- Total number of ValidationError records carried by a response. -/
def errorRecordCount : List Write → Nat
  | [] => 0
  | Write.errorsObj errs :: ws => errs.length + errorRecordCount ws
  | _ :: ws => errorRecordCount ws

/-- A payload violating two declared constraints on one field: the empty
Name fails both `required` and `min=5`, while the Email is valid. -/
def uBad : User := ⟨uuidZero, "", "jane@example.com"⟩

/-- A payload passing every declared constraint. -/
def uGood : User := ⟨uuidZero, "Jane Doe", "jane.doe@example.com"⟩

/-- A payload matching the spec first example scenario: a two-character Name
(fails min=5) and a malformed Email (fails the email rule). -/
def uBad2 : User := ⟨uuidZero, "Jo", "not-an-email"⟩

/-- A field contributes one record exactly when some of its rules fails. -/
theorem fieldErrors_length (field value : String) (rules : List VRule) :
    (fieldErrors field value rules).length =
      if rules.any (fun r => !ruleOk r value) then 1 else 0 := by
  unfold fieldErrors
  cases h : rules.find? (fun r => !ruleOk r value) with
  | none =>
      have hany : rules.any (fun r => !ruleOk r value) = false := by
        rw [List.any_eq_false]
        intro x hx
        have := List.find?_eq_none.mp h x hx
        simpa using this
      simp [hany]
  | some r =>
      have hmem := List.mem_of_find?_eq_some h
      have hp := List.find?_some h
      have hany : rules.any (fun r => !ruleOk r value) = true :=
        List.any_eq_true.mpr ⟨r, hmem, hp⟩
      simp [hany]

/-- The validator reports one record per violated field. -/
theorem validateUser_length (u : User) :
    (validateUser u).length = violatedFieldCount u := by
  unfold validateUser violatedFieldCount
  rw [List.length_append, fieldErrors_length, fieldErrors_length]

/-- The reported records address pairwise distinct fields. -/
theorem validateUser_fields_nodup (u : User) :
    ((validateUser u).map Prod.fst).Nodup := by
  unfold validateUser fieldErrors
  cases hn : userNameRules.find? (fun r => !ruleOk r u.Name) <;>
    cases he : userEmailRules.find? (fun r => !ruleOk r u.Email) <;>
      simp

/-- A record reported for one field names that field and a rule its
submitted value indeed fails. -/
theorem fieldErrors_sound (field value : String) (rules : List VRule) :
    ∀ fr ∈ fieldErrors field value rules,
      fr.1 = field ∧ ruleOk fr.2 value = false := by
  intro fr hfr
  unfold fieldErrors at hfr
  cases h : rules.find? (fun r => !ruleOk r value) with
  | none => rw [h] at hfr; simp at hfr
  | some r =>
      rw [h] at hfr
      have hp := List.find?_some h
      simp at hfr
      subst hfr
      exact ⟨rfl, by simpa using hp⟩

/-- Every reported record names a field whose submitted value indeed fails
the reported rule. -/
theorem validateUser_sound (u : User) :
    ∀ fr ∈ validateUser u,
      (fr.1 = "Name" ∧ ruleOk fr.2 u.Name = false) ∨
        (fr.1 = "Email" ∧ ruleOk fr.2 u.Email = false) := by
  intro fr hfr
  unfold validateUser at hfr
  rcases List.mem_append.mp hfr with h | h
  · exact Or.inl (fieldErrors_sound _ _ _ fr h)
  · exact Or.inr (fieldErrors_sound _ _ _ fr h)

/-- The EditUser validation-failure response is a bare plain-text 422. -/
theorem editUser_invalid (idp : String) (uid : UUID) (u : User)
    (hid : uuidParse idp = some uid) (hv : validateUser u ≠ []) :
    EditUser idp (some u) = httpError "Request validation failed" 422 := by
  have hne : (validateUser u).isEmpty = false := by
    cases hval : validateUser u with
    | nil => exact absurd hval hv
    | cons a t => simp
  simp only [EditUser, hid, hne]
  simp

/-- Shared shape of the part_004 UpdateUser validation-failure response. -/
theorem updateUser_invalid (idp : String) (uid : UUID) (u : User)
    (hid : uuidParse idp = some uid) (hv : validateUser u ≠ []) :
    Part004.UpdateUser idp (some u) =
      [Write.header 422, Write.errorsObj ((validateUser u).map mkErrorDetail)] := by
  have hne : (validateUser u).isEmpty = false := by
    cases hval : validateUser u with
    | nil => exact absurd hval hv
    | cons a t => simp
  simp only [Part004.UpdateUser, hid, hne]
  simp

/-- C1 counterexample: the payload with empty Name and valid Email violates
N = 2 declared constraints (required and min=5, both on Name), yet the
part_004 UpdateUser response carries a single ValidationError record (the
validator stops at the first failing rule of each field), and the current
EditUser responds 422 with a plain-text body carrying no records at all. -/
theorem c1_counterexample :
    violatedConstraintCount uBad = 2 ∧
    effectiveStatus (Part004.UpdateUser idStr1 (some uBad)) = some 422 ∧
    errorRecordCount (Part004.UpdateUser idStr1 (some uBad)) = 1 ∧
    errorRecordCount (EditUser idStr1 (some uBad)) = 0 ∧
    (2 : Nat) ≠ 1 := by
  exact ⟨by decide, by decide, by decide, by decide, by decide⟩

/-- C1 (amended): on a validation failure, part_004 UpdateUser responds 422
with one ValidationError record per violated field, not per violated
constraint: every field is checked (no early termination across fields), the
records address pairwise distinct fields, and each record reports a rule its
field indeed fails, but within one field evaluation stops at the first
failing rule. -/
theorem c1_theorem (idp : String) (uid : UUID) (u : User)
    (hid : uuidParse idp = some uid) (hv : validateUser u ≠ []) :
    Part004.UpdateUser idp (some u) =
      [Write.header 422, Write.errorsObj ((validateUser u).map mkErrorDetail)] ∧
    errorRecordCount (Part004.UpdateUser idp (some u)) = violatedFieldCount u ∧
    ((validateUser u).map Prod.fst).Nodup ∧
    (∀ fr ∈ validateUser u,
      (fr.1 = "Name" ∧ ruleOk fr.2 u.Name = false) ∨
        (fr.1 = "Email" ∧ ruleOk fr.2 u.Email = false)) := by
  have hresp := updateUser_invalid idp uid u hid hv
  refine ⟨hresp, ?_, validateUser_fields_nodup u, validateUser_sound u⟩
  rw [hresp]
  simp [errorRecordCount, validateUser_length]

/-- C1 witness: the amended statement evaluated on the concrete payload. -/
theorem c1_witness :
    Part004.UpdateUser idStr1 (some uBad) =
      [Write.header 422, Write.errorsObj ((validateUser uBad).map mkErrorDetail)] :=
  (c1_theorem idStr1 uuid1 uBad (by decide) (by decide)).1

/-- C2: with the unparsable identifier `not-a-uuid`, Get and Delete for both
resources write the 404; but DeleteUser, lacking a `return` after its
`http.Error` call, falls through and also calls WriteHeader(204) after the
404 - contradicting the claim that no success status is ever written after
the NotFound.  net/http ignores the superfluous second WriteHeader, so the
wire status is still 404. -/
theorem c2_theorem :
    DeleteUser "not-a-uuid" =
      [Write.header 404, Write.text "User ID Not Found\n", Write.header 204] ∧
    effectiveStatus (DeleteUser "not-a-uuid") = some 404 ∧
    GetUser "not-a-uuid" = httpError "User ID Not Found" 404 ∧
    GetArticle "not-a-uuid" = httpError "Article ID Not Found" 404 ∧
    DeleteArticle "not-a-uuid" = httpError "Article ID Not Found" 404 ∧
    (∀ b, EditUser "not-a-uuid" b = httpError "User ID Not Found" 404) := by
  refine ⟨rfl, rfl, rfl, rfl, rfl, fun b => rfl⟩

/-- C3 counterexample: on a decode failure, CreateUser writes status 500, not
the claimed 400. -/
theorem c3_counterexample :
    CreateUser none (some uuid1) =
      [Write.header 500, Write.text "Invalid Request Body\n"] ∧
    effectiveStatus (CreateUser none (some uuid1)) ≠ some 400 := by
  exact ⟨rfl, by decide⟩

/-- C3 (amended): a Create whose body cannot be decoded fails immediately,
but the status differs per resource: CreateArticle writes 400, while
CreateUser writes 500 (its `http.Error` call passes
StatusInternalServerError). -/
theorem c3_theorem (gu ga : Option UUID) :
    CreateUser none gu = httpError "Invalid Request Body" 500 ∧
    CreateArticle none ga = httpError "Invalid request body" 400 := by
  exact ⟨rfl, rfl⟩

/-- C4 counterexample: an EditArticle request whose identifier is unparsable
and whose body is undecodable answers 400, not the claimed 404: the decode
check runs before the identifier check. -/
theorem c4_counterexample :
    uuidParse "abc" = none ∧
    EditArticle "abc" none = httpError "Invalid Request Body" 400 ∧
    effectiveStatus (EditArticle "abc" none) ≠ some 404 := by
  exact ⟨rfl, rfl, by decide⟩

/-- C4 (amended): EditUser checks in the claimed order - identifier parse
(404), then body decode (400), then validation of the decoded body (422) -
and on success full-replaces Name and Email from the body while keeping the
path identifier.  EditArticle deviates: it validates a zero-value article
before decoding (vacuously, since models.Article declares no constraints)
and checks body decode before the identifier, so an undecodable body answers
400 whatever the identifier; on success it too full-replaces all editable
fields keeping the path identifier. -/
theorem c4_theorem (good bad : String) (uid : UUID) (u : User) (a : Article)
    (hgood : uuidParse good = some uid) (hbad : uuidParse bad = none) :
    (∀ b, EditUser bad b = httpError "User ID Not Found" 404) ∧
    EditUser good none = httpError "Invalid Request Body" 400 ∧
    (validateUser u ≠ [] →
      EditUser good (some u) = httpError "Request validation failed" 422) ∧
    (validateUser u = [] →
      EditUser good (some u) =
        [Write.header 201, Write.userObj "user" ⟨uid, u.Name, u.Email⟩]) ∧
    (∀ s, EditArticle s none = httpError "Invalid Request Body" 400) ∧
    EditArticle good (some a) =
      [Write.header 201,
        Write.articleObj ⟨uid, a.Title, a.Author, a.Published⟩] := by
  refine ⟨fun b => by simp [EditUser, hbad], by simp [EditUser, hgood], ?_, ?_, ?_, ?_⟩
  · exact editUser_invalid good uid u hgood
  · intro hv
    simp [EditUser, hgood, hv]
  · intro s
    rfl
  · simp [EditArticle, validateArticle, hgood]

/-- C4 witness: the amended statement evaluated on a concrete valid update. -/
theorem c4_witness :
    EditUser idStr1 (some uGood) =
      [Write.header 201, Write.userObj "user" ⟨uuid1, uGood.Name, uGood.Email⟩] :=
  ((c4_theorem idStr1 "abc" uuid1 uGood ⟨uuidZero, "T", "A", true⟩
    (by decide) (by decide)).2.2.2.1) (by decide)

/-- C5: every List response reuses one generated identifier for all returned
resources - GetUsers gives both users the same `userID`, the users service
GetAllUsers gives all three the same, and GetArticles gives all three
articles the same - contradicting the claim that no two resources of a List
response share an identifier.  The GetUsers doc comment itself promises
"each user having a unique ID". -/
theorem c5_theorem (uid : UUID) :
    (∃ us : List User,
      GetUsers (some uid) = [Write.header 200, Write.usersObj us] ∧
        us.length = 2 ∧ ¬ (us.map User.ID).Nodup) ∧
    (∃ us : List User, GetAllUsers (some uid) = Except.ok us ∧
        us.length = 3 ∧ ¬ (us.map User.ID).Nodup) ∧
    (∃ arts : List Article,
      GetArticles (some uid) = [Write.header 200, Write.articlesObj arts] ∧
        ¬ (arts.map Article.ID).Nodup) := by
  refine ⟨⟨_, rfl, rfl, ?_⟩, ⟨_, rfl, rfl, ?_⟩, ⟨_, rfl, ?_⟩⟩ <;> simp

/-- C6 counterexample: Create echoes the submitted fields, but the
subsequent Get with the assigned identifier returns the hardcoded mock user,
whose Name differs from the submitted one. -/
theorem c6_counterexample :
    CreateUser (some uGood) (some uuid1) =
      [Write.header 201,
        Write.userObj "user" ⟨uuid1, "Jane Doe", "jane.doe@example.com"⟩] ∧
    GetUser idStr1 =
      [Write.header 200,
        Write.userObj "user" ⟨uuid1, "Somraj Saha", "somraj.saha@weburz.com"⟩] ∧
    ("Somraj Saha" : String) ≠ "Jane Doe" := by
  exact ⟨by decide, by decide, by decide⟩

/-- C6 (amended): the resource returned by Create itself carries the
submitted editable field values (identifier aside), but a subsequent Get
does not return them: Get always answers with the hardcoded mock values,
only its identifier reflecting the request. -/
theorem c6_theorem (u : User) (uid : UUID) (s : String)
    (hv : validateUser u = []) (hs : uuidParse s = some uid) :
    CreateUser (some u) (some uid) =
      [Write.header 201, Write.userObj "user" ⟨uid, u.Name, u.Email⟩] ∧
    GetUser s =
      [Write.header 200,
        Write.userObj "user" ⟨uid, "Somraj Saha", "somraj.saha@weburz.com"⟩] := by
  constructor
  · simp [CreateUser, hv]
  · simp [GetUser, hs]

/-- C6 witness: the amended statement evaluated on a concrete payload. -/
theorem c6_witness :
    CreateUser (some uGood) (some uuid1) =
      [Write.header 201, Write.userObj "user" ⟨uuid1, uGood.Name, uGood.Email⟩] :=
  (c6_theorem uGood uuid1 idStr1 (by decide) (by decide)).1

/-- C7 counterexample: no store exists, so no article was ever created under
this well-formed identifier; deleting it nonetheless answers 204, never the
claimed NotFound. -/
theorem c7_counterexample :
    DeleteArticle "2eee23d1-f1d3-4c1e-b22d-f789098c55e7" = [Write.header 204] ∧
    effectiveStatus (DeleteArticle "2eee23d1-f1d3-4c1e-b22d-f789098c55e7") ≠
      some 404 := by
  exact ⟨by decide, by decide⟩

/-- C7 (amended): Delete answers NotFound exactly on an unparsable
identifier; for any syntactically valid identifier it answers 204 with no
body, regardless of whether the resource exists or was deleted before -
deletion is mocked and consults no store, so repeating a Delete repeats the
204. -/
theorem c7_theorem (s : String) (uid : UUID) (h : uuidParse s = some uid) :
    DeleteArticle s = [Write.header 204] ∧
    DeleteUser s = [Write.header 204] ∧
    Part004.DeleteUser s = [Write.header 204] := by
  refine ⟨?_, ?_, ?_⟩ <;> simp [DeleteArticle, DeleteUser, Part004.DeleteUser, h]

/-- C7 witness: two Deletes of the same valid identifier both answer 204. -/
theorem c7_witness :
    DeleteArticle idStr1 = [Write.header 204] ∧
    DeleteUser idStr1 = [Write.header 204] := by
  have h := c7_theorem idStr1 uuid1 (by decide)
  exact ⟨h.1, h.2.1⟩

/-- C8 counterexample: the detail string the code builds wraps the rule and
the field each in single quotes, so it differs from the claimed exact text
with no extra characters around them. -/
theorem c8_counterexample :
    Part004.UpdateUser idStr1 (some uBad) =
      [Write.header 422,
        Write.errorsObj [mkErrorDetail ("Name", VRule.required)]] ∧
    (mkErrorDetail ("Name", VRule.required)).detail ≠
      "required validation failed for field: Name" := by
  exact ⟨by decide, by decide⟩

/-- C8 (amended): the part_004 UpdateUser validation-failure response has
status 422 and an `errors` list in which every entry has status 422, title
`Invalid Attribute`, a pointer `/data/attributes/` followed by the failing
field, and a detail reading: <rule> validation failed for field: <field>,
with the rule and the field each wrapped in single quotes. -/
theorem c8_theorem (idp : String) (uid : UUID) (u : User)
    (hid : uuidParse idp = some uid) (hv : validateUser u ≠ []) :
    Part004.UpdateUser idp (some u) =
      [Write.header 422, Write.errorsObj ((validateUser u).map mkErrorDetail)] ∧
    ∀ e ∈ (validateUser u).map mkErrorDetail,
      e.status = 422 ∧ e.title = "Invalid Attribute" ∧
      ∃ fr ∈ validateUser u,
        e.source.pointer = "/data/attributes/" ++ fr.1 ∧
        e.detail =
          sq ++ fr.2.tag ++ sq ++ " validation failed for field: " ++
            sq ++ fr.1 ++ sq := by
  refine ⟨updateUser_invalid idp uid u hid hv, ?_⟩
  intro e he
  rcases List.mem_map.mp he with ⟨fr, hfr, rfl⟩
  exact ⟨rfl, rfl, fr, hfr, rfl, rfl⟩

/-- C8 witness: the amended statement evaluated on a concrete payload whose
two fields each violate a rule. -/
theorem c8_witness :
    Part004.UpdateUser idStr1 (some uBad2) =
      [Write.header 422,
        Write.errorsObj ((validateUser uBad2).map mkErrorDetail)] :=
  (c8_theorem idStr1 uuid1 uBad2 (by decide) (by decide)).1

/-- C9: for every identifier that parses as a UUID, Get answers 200 with a
resource carrying exactly the requested identifier; the NotFound branch is
reserved for parse failures and is never taken for a well-formed identifier,
whether or not anything was created under it (the lookup is mocked). -/
theorem c9_theorem (s : String) (uid : UUID) (h : uuidParse s = some uid) :
    GetUser s =
      [Write.header 200,
        Write.userObj "user" ⟨uid, "Somraj Saha", "somraj.saha@weburz.com"⟩] ∧
    GetArticle s =
      [Write.header 200,
        Write.articleObj ⟨uid, "Go Programmign Basics", "John Doe", true⟩] := by
  constructor <;> simp [GetUser, GetArticle, h]

/-- C9 witness: the statement evaluated on a concrete well-formed
identifier never used by any Create. -/
theorem c9_witness :
    GetUser idStr1 =
      [Write.header 200,
        Write.userObj "user" ⟨uuid1, "Somraj Saha", "somraj.saha@weburz.com"⟩] :=
  (c9_theorem idStr1 uuid1 (by decide)).1

/-- C10: whatever article body is decoded - including one submitting
Published as true - CreateArticle answers 201 with an article whose
Published is false and whose Title and Author are the only fields taken from
the payload. -/
theorem c10_theorem (a : Article) (uid : UUID) :
    CreateArticle (some a) (some uid) =
      [Write.header 201, Write.articleObj ⟨uid, a.Title, a.Author, false⟩] := by
  simp [CreateArticle, validateArticle]

end BurzContent
